import Mathlib

/-!
Shallow embedding of the GMAS blog-writing pipeline (src/GMAS_app.py).

The Python program orchestrates four agents (research, writing, editing, seo)
over a shared results dict and an asyncio task queue.  External collaborators
(the DuckDuckGo search client and the two HTTP text-generation endpoints) are
modelled as parameters ("Providers"); every call either yields structured
output or fails.  Python dicts with string keys are modelled as association
lists in insertion order; a KeyError on a dict access is modelled by an
explicit error value named after the spec's taxonomy for that access site.
Each run additionally produces an event trace recording every provider call
and every write into the results dict, so that "never invoked" and
"written exactly once" become statements about the trace.
-/

namespace GMAS

/-- A search hit as produced by the external search provider. -/
structure SearchHit where
  title : String
  url : String
  snippet : String
  deriving DecidableEq

/-- A Python value as it occurs in task fields and the results dict:
None, a string, or a list of search hits. -/
inductive Value where
  | null : Value
  | text : String → Value
  | hits : List SearchHit → Value
  deriving DecidableEq

/-- Python str() of a search hit (a dict with keys title, url, snippet). -/
def SearchHit.pyStr (h : SearchHit) : String :=
  "\x7b\x27title\x27: \x27" ++ h.title ++ "\x27, \x27url\x27: \x27" ++ h.url ++
    "\x27, \x27snippet\x27: \x27" ++ h.snippet ++ "\x27\x7d"

/-- Python str() of a list of search hits. -/
def hitsPyStr (l : List SearchHit) : String :=
  "[" ++ String.intercalate ", " (l.map SearchHit.pyStr) ++ "]"

/-- Python str() of a value, as interpolated by an f-string. -/
def Value.pyStr : Value → String
  | .null => "None"
  | .text s => s
  | .hits l => hitsPyStr l

/-- A Python dict with string keys, kept in insertion order. -/
abbrev Dict := List (String × Value)

/-- Dict lookup (d[k] on the reading side): first binding of the key, if any. -/
def dictGet : Dict → String → Option Value
  | [], _ => none
  | (k1, v) :: rest, k => if k1 = k then some v else dictGet rest k

/-- Dict write (d[k] = v): overwrite in place if the key is present,
append otherwise, as Python dicts do. -/
def dictInsert : Dict → String → Value → Dict
  | [], k, v => [(k, v)]
  | (k1, v1) :: rest, k, v =>
    if k1 = k then (k, v) :: rest else (k1, v1) :: dictInsert rest k v

/-- Dict update (d.update(p)): write every binding of p into d, in order. -/
def dictUpdate (d : Dict) (p : Dict) : Dict :=
  p.foldl (fun acc kv => dictInsert acc kv.1 kv.2) d

/-- A task descriptor, as handed to add_task and to the agents. -/
abbrev Task := Dict

/-- The partial result an agent returns, merged into the results dict. -/
abbrev PartialResult := Dict

/-- Modelled from the spec: the external collaborators (the search provider
and the two text-generation providers) live outside src/GMAS_app.py; each is
a call that either produces structured output or fails.  The search provider
receives whatever value the task held under query; the text providers receive
a prompt string and a max-token count. -/
structure Providers where
  search : Value → Except Unit (List SearchHit)
  azure : String → Nat → Except Unit String
  anthropic : String → Nat → Except Unit String

/-- Observable events of a run: the three kinds of provider call, and each
write of a key into the results dict. -/
inductive Event where
  | search : Value → Event
  | azure : String → Nat → Event
  | anthropic : String → Nat → Event
  | write : String → Value → Event
  deriving DecidableEq

/-- The key written by a write event, if the event is a write. -/
def Event.writeKey : Event → Option String
  | .write k _ => some k
  | _ => none

/-- Error taxonomy of the spec; each constructor corresponds to one exception
site in GMAS_app.py: a KeyError on a required task field, a KeyError on the
agent registry, a failed provider call, and a KeyError on the results dict
read inside run_pipeline. -/
inductive Err where
  | missingInput : String → Err
  | unknownAgent : Value → Err
  | upstream : Err
  | missingKey : String → Err
  deriving DecidableEq

/-- The drafting prompt built by WritingAgent's f-string. -/
def writingPromptOf (topic rr : Value) : String :=
  "Write a blog post about " ++ topic.pyStr ++
    " using the following research: " ++ rr.pyStr

/-- The editing prompt built by EditingAgent's f-string. -/
def editingPromptOf (bp : Value) : String :=
  "Edit and improve the following blog post: " ++ bp.pyStr

/-- The metadata prompt built by SEOAgent's f-string. -/
def seoPromptOf (ep : Value) : String :=
  "Generate SEO metadata for the following blog post: " ++ ep.pyStr

/-- ResearchAgent.process_task: read the query field, run the search,
return the research results under research_results. -/
def ResearchAgent.process_task (pv : Providers) (task : Task) :
    List Event × Except Err PartialResult :=
  match dictGet task "query" with
  | none => ([], .error (.missingInput "query"))
  | some q =>
    match pv.search q with
    | .error _ => ([.search q], .error .upstream)
    | .ok rs => ([.search q], .ok [("research_results", .hits rs)])

/-- WritingAgent.process_task: build the drafting prompt from the topic and
research_results fields (read in that order), call provider A with
max_tokens 1000, return the completion under blog_post. -/
def WritingAgent.process_task (pv : Providers) (task : Task) :
    List Event × Except Err PartialResult :=
  match dictGet task "topic" with
  | none => ([], .error (.missingInput "topic"))
  | some topic =>
    match dictGet task "research_results" with
    | none => ([], .error (.missingInput "research_results"))
    | some rr =>
      match pv.azure (writingPromptOf topic rr) 1000 with
      | .error _ => ([.azure (writingPromptOf topic rr) 1000], .error .upstream)
      | .ok s =>
        ([.azure (writingPromptOf topic rr) 1000], .ok [("blog_post", .text s)])

/-- EditingAgent.process_task: build the editing prompt from blog_post,
call provider B with max_tokens 1000, return the text under edited_post. -/
def EditingAgent.process_task (pv : Providers) (task : Task) :
    List Event × Except Err PartialResult :=
  match dictGet task "blog_post" with
  | none => ([], .error (.missingInput "blog_post"))
  | some bp =>
    match pv.anthropic (editingPromptOf bp) 1000 with
    | .error _ => ([.anthropic (editingPromptOf bp) 1000], .error .upstream)
    | .ok s =>
      ([.anthropic (editingPromptOf bp) 1000], .ok [("edited_post", .text s)])

/-- SEOAgent.process_task: build the metadata prompt from edited_post,
call provider A with max_tokens 500, return the text under seo_metadata. -/
def SEOAgent.process_task (pv : Providers) (task : Task) :
    List Event × Except Err PartialResult :=
  match dictGet task "edited_post" with
  | none => ([], .error (.missingInput "edited_post"))
  | some ep =>
    match pv.azure (seoPromptOf ep) 500 with
    | .error _ => ([.azure (seoPromptOf ep) 500], .error .upstream)
    | .ok s =>
      ([.azure (seoPromptOf ep) 500], .ok [("seo_metadata", .text s)])

/-- One loop body of process_tasks: resolve agents[task.agent] against the
fixed registry built in CentralGuidingAgent.init and run that agent on the
task.  A task naming no registered agent fails before any provider call. -/
def dispatchTask (pv : Providers) (task : Task) :
    List Event × Except Err PartialResult :=
  match dictGet task "agent" with
  | none => ([], .error (.missingInput "agent"))
  | some a =>
    if a = Value.text "research" then ResearchAgent.process_task pv task
    else if a = Value.text "writing" then WritingAgent.process_task pv task
    else if a = Value.text "editing" then EditingAgent.process_task pv task
    else if a = Value.text "seo" then SEOAgent.process_task pv task
    else ([], .error (.unknownAgent a))

/-- The mutable state of a CentralGuidingAgent: its task queue (front of the
list is dequeued first) and its results dict. -/
structure CGAState where
  task_queue : List Task
  results : Dict
  deriving DecidableEq

/-- The while-loop of process_tasks, on an explicit queue: while the queue is
non-empty, dequeue, dispatch, and merge the partial result into the results
dict before the next dequeue.  An exception exits the loop at once; the
failing task has already been dequeued and its result is not merged. -/
def processLoop (pv : Providers) : List Task → Dict → List Event × CGAState × Option Err
  | [], results => ([], ⟨[], results⟩, none)
  | task :: rest, results =>
    match dispatchTask pv task with
    | (evs, .error e) => (evs, ⟨rest, results⟩, some e)
    | (evs, .ok pr) =>
      match processLoop pv rest (dictUpdate results pr) with
      | (evs2, s2, r) =>
        (evs ++ pr.map (fun kv => Event.write kv.1 kv.2) ++ evs2, s2, r)

/-- CentralGuidingAgent.process_tasks on an explicit state. -/
def CentralGuidingAgent.process_tasks (pv : Providers) (s : CGAState) :
    List Event × CGAState × Option Err :=
  processLoop pv s.task_queue s.results

/-- CentralGuidingAgent.add_task: enqueue at the back. -/
def CentralGuidingAgent.add_task (task : Task) (s : CGAState) : CGAState :=
  ⟨s.task_queue ++ [task], s.results⟩

/-- The research-stage task, as the dict literal in run_pipeline builds it. -/
def researchTaskOf (topic : String) : Task :=
  [("agent", .text "research"), ("query", .text topic)]

/-- The writing-stage task, given the stored research results. -/
def writingTaskOf (topic : String) (rr : Value) : Task :=
  [("agent", .text "writing"), ("topic", .text topic), ("research_results", rr)]

/-- The editing-stage task, given the stored blog post. -/
def editingTaskOf (bp : Value) : Task :=
  [("agent", .text "editing"), ("blog_post", bp)]

/-- The seo-stage task, given the stored edited post. -/
def seoTaskOf (ep : Value) : Task :=
  [("agent", .text "seo"), ("edited_post", ep)]

/-- Construction of the writing-stage task in run_pipeline: the dict literal
reads results[research_results], which raises if the key is absent. -/
def buildWritingTask (topic : String) (results : Dict) : Except Err Task :=
  match dictGet results "research_results" with
  | none => .error (.missingKey "research_results")
  | some rr => .ok (writingTaskOf topic rr)

/-- Construction of the editing-stage task: reads results[blog_post]. -/
def buildEditingTask (results : Dict) : Except Err Task :=
  match dictGet results "blog_post" with
  | none => .error (.missingKey "blog_post")
  | some bp => .ok (editingTaskOf bp)

/-- Construction of the seo-stage task: reads results[edited_post]. -/
def buildSeoTask (results : Dict) : Except Err Task :=
  match dictGet results "edited_post" with
  | none => .error (.missingKey "edited_post")
  | some ep => .ok (seoTaskOf ep)

/-- CentralGuidingAgent.run_pipeline: four stages, each an add_task followed
by a full process_tasks drain, then the final artifact dict built from
results[edited_post] (under key blog_post) and results[seo_metadata].  Any
exception aborts the run with no artifact; the trace accumulates across
stages. -/
def CentralGuidingAgent.run_pipeline (pv : Providers) (topic : String)
    (s : CGAState) : List Event × CGAState × Except Err Dict :=
  match CentralGuidingAgent.process_tasks pv
      (CentralGuidingAgent.add_task (researchTaskOf topic) s) with
  | (e1, s1, some err) => (e1, s1, .error err)
  | (e1, s1, none) =>
    match buildWritingTask topic s1.results with
    | .error err => (e1, s1, .error err)
    | .ok t2 =>
      match CentralGuidingAgent.process_tasks pv
          (CentralGuidingAgent.add_task t2 s1) with
      | (e2, s2, some err) => (e1 ++ e2, s2, .error err)
      | (e2, s2, none) =>
        match buildEditingTask s2.results with
        | .error err => (e1 ++ e2, s2, .error err)
        | .ok t3 =>
          match CentralGuidingAgent.process_tasks pv
              (CentralGuidingAgent.add_task t3 s2) with
          | (e3, s3, some err) => (e1 ++ e2 ++ e3, s3, .error err)
          | (e3, s3, none) =>
            match buildSeoTask s3.results with
            | .error err => (e1 ++ e2 ++ e3, s3, .error err)
            | .ok t4 =>
              match CentralGuidingAgent.process_tasks pv
                  (CentralGuidingAgent.add_task t4 s3) with
              | (e4, s4, some err) => (e1 ++ e2 ++ e3 ++ e4, s4, .error err)
              | (e4, s4, none) =>
                match dictGet s4.results "edited_post" with
                | none =>
                  (e1 ++ e2 ++ e3 ++ e4, s4, .error (.missingKey "edited_post"))
                | some vE =>
                  match dictGet s4.results "seo_metadata" with
                  | none =>
                    (e1 ++ e2 ++ e3 ++ e4, s4,
                      .error (.missingKey "seo_metadata"))
                  | some vS =>
                    (e1 ++ e2 ++ e3 ++ e4, s4,
                      .ok [("blog_post", vE), ("seo_metadata", vS)])

/-- The search hits of the concrete test scenario in the spec. -/
def mockHits : List SearchHit := [⟨"A", "u1", "s1"⟩]

/-- Providers for the concrete test scenario: the search mock returns one
hit, provider A returns the draft on the writing call (max_tokens 1000) and
the metadata on the seo call (max_tokens 500), provider B returns the edited
text. -/
def mockProviders : Providers where
  search := fun _ => .ok mockHits
  azure := fun _ n => if n = 1000 then .ok "Draft text" else .ok "meta: remote work"
  anthropic := fun _ _ => .ok "Edited text"

/-- Providers whose editing (provider B) call always fails, the others being
the scenario mocks. -/
def mockProvidersEditFail : Providers where
  search := fun _ => .ok mockHits
  azure := fun _ n => if n = 1000 then .ok "Draft text" else .ok "meta: remote work"
  anthropic := fun _ _ => .error ()

/-- Providers that all succeed but return empty output. -/
def emptyProviders : Providers where
  search := fun _ => .ok []
  azure := fun _ _ => .ok ""
  anthropic := fun _ _ => .ok ""

/-- Spec-side restatement of the dispatcher loop: process the queued tasks
one at a time in FIFO order, resolving and invoking each task's agent and
merging its output into the store before taking the next task, until the
queue is exhausted or a task fails. -/
def drainFIFO (pv : Providers) : List Task → Dict → List Event × Dict × Option Err
  | [], results => ([], results, none)
  | task :: rest, results =>
    match dispatchTask pv task with
    | (evs, .error e) => (evs, results, some e)
    | (evs, .ok pr) =>
      match drainFIFO pv rest (dictUpdate results pr) with
      | (evs2, r2, r) =>
        (evs ++ pr.map (fun kv => Event.write kv.1 kv.2) ++ evs2, r2, r)

/-- The results dict after a clean run from the initial empty state. -/
def fullStore (rs : List SearchHit) (d ed m : String) : Dict :=
  [("research_results", .hits rs), ("blog_post", .text d),
   ("edited_post", .text ed), ("seo_metadata", .text m)]

/-- The event trace of a clean run from the initial empty state. -/
def fullEvents (topic : String) (rs : List SearchHit) (d ed m : String) :
    List Event :=
  [.search (.text topic), .write "research_results" (.hits rs),
   .azure (writingPromptOf (.text topic) (.hits rs)) 1000,
   .write "blog_post" (.text d),
   .anthropic (editingPromptOf (.text d)) 1000,
   .write "edited_post" (.text ed),
   .azure (seoPromptOf (.text ed)) 500,
   .write "seo_metadata" (.text m)]

/-- Writing a key always makes it readable with the written value. -/
theorem dictGet_dictInsert_self (d : Dict) (k : String) (v : Value) :
    dictGet (dictInsert d k v) k = some v := by
  induction d with
  | nil => simp [dictInsert, dictGet]
  | cons kv rest ih =>
    by_cases h : kv.1 = k
    · simp [dictInsert, h, dictGet]
    · simp [dictInsert, h, dictGet, ih]

/-- Updating with a single binding is a single write. -/
theorem dictUpdate_single (d : Dict) (k : String) (v : Value) :
    dictUpdate d [(k, v)] = dictInsert d k v := rfl

/-- Dispatching the research-stage task when the search succeeds. -/
theorem dispatch_research_ok (pv : Providers) (topic : String)
    (rs : List SearchHit) (hS : pv.search (.text topic) = .ok rs) :
    dispatchTask pv (researchTaskOf topic) =
      ([.search (.text topic)], .ok [("research_results", .hits rs)]) := by
  simp [dispatchTask, researchTaskOf, ResearchAgent.process_task, dictGet, hS]

/-- Dispatching the research-stage task when the search fails. -/
theorem dispatch_research_err (pv : Providers) (topic : String)
    (u : Unit) (hS : pv.search (.text topic) = .error u) :
    dispatchTask pv (researchTaskOf topic) =
      ([.search (.text topic)], .error .upstream) := by
  simp [dispatchTask, researchTaskOf, ResearchAgent.process_task, dictGet, hS]

/-- Dispatching the writing-stage task when provider A succeeds. -/
theorem dispatch_writing_ok (pv : Providers) (topic : String) (rr : Value)
    (d : String) (hW : pv.azure (writingPromptOf (.text topic) rr) 1000 = .ok d) :
    dispatchTask pv (writingTaskOf topic rr) =
      ([.azure (writingPromptOf (.text topic) rr) 1000],
        .ok [("blog_post", .text d)]) := by
  simp [dispatchTask, writingTaskOf, WritingAgent.process_task, dictGet, hW]

/-- Dispatching the writing-stage task when provider A fails. -/
theorem dispatch_writing_err (pv : Providers) (topic : String) (rr : Value)
    (u : Unit) (hW : pv.azure (writingPromptOf (.text topic) rr) 1000 = .error u) :
    dispatchTask pv (writingTaskOf topic rr) =
      ([.azure (writingPromptOf (.text topic) rr) 1000], .error .upstream) := by
  simp [dispatchTask, writingTaskOf, WritingAgent.process_task, dictGet, hW]

/-- Dispatching the editing-stage task when provider B succeeds. -/
theorem dispatch_editing_ok (pv : Providers) (bp : Value) (ed : String)
    (hE : pv.anthropic (editingPromptOf bp) 1000 = .ok ed) :
    dispatchTask pv (editingTaskOf bp) =
      ([.anthropic (editingPromptOf bp) 1000],
        .ok [("edited_post", .text ed)]) := by
  simp [dispatchTask, editingTaskOf, EditingAgent.process_task, dictGet, hE]

/-- Dispatching the editing-stage task when provider B fails. -/
theorem dispatch_editing_err (pv : Providers) (bp : Value) (u : Unit)
    (hE : pv.anthropic (editingPromptOf bp) 1000 = .error u) :
    dispatchTask pv (editingTaskOf bp) =
      ([.anthropic (editingPromptOf bp) 1000], .error .upstream) := by
  simp [dispatchTask, editingTaskOf, EditingAgent.process_task, dictGet, hE]

/-- Dispatching the seo-stage task when provider A succeeds. -/
theorem dispatch_seo_ok (pv : Providers) (ep : Value) (m : String)
    (hM : pv.azure (seoPromptOf ep) 500 = .ok m) :
    dispatchTask pv (seoTaskOf ep) =
      ([.azure (seoPromptOf ep) 500], .ok [("seo_metadata", .text m)]) := by
  simp [dispatchTask, seoTaskOf, SEOAgent.process_task, dictGet, hM]

/-- Dispatching the seo-stage task when provider A fails. -/
theorem dispatch_seo_err (pv : Providers) (ep : Value) (u : Unit)
    (hM : pv.azure (seoPromptOf ep) 500 = .error u) :
    dispatchTask pv (seoTaskOf ep) =
      ([.azure (seoPromptOf ep) 500], .error .upstream) := by
  simp [dispatchTask, seoTaskOf, SEOAgent.process_task, dictGet, hM]

/-- Draining a freshly enqueued single task on an empty queue, success case. -/
theorem stage_eval_ok (pv : Providers) (task : Task) (evs : List Event)
    (pr : PartialResult) (results : Dict)
    (h : dispatchTask pv task = (evs, .ok pr)) :
    CentralGuidingAgent.process_tasks pv
        (CentralGuidingAgent.add_task task ⟨[], results⟩) =
      (evs ++ pr.map (fun kv => Event.write kv.1 kv.2),
        ⟨[], dictUpdate results pr⟩, none) := by
  show processLoop pv ([] ++ [task]) results = _
  simp [processLoop, h]

/-- Draining a freshly enqueued single task on an empty queue, error case. -/
theorem stage_eval_err (pv : Providers) (task : Task) (evs : List Event)
    (e : Err) (results : Dict)
    (h : dispatchTask pv task = (evs, .error e)) :
    CentralGuidingAgent.process_tasks pv
        (CentralGuidingAgent.add_task task ⟨[], results⟩) =
      (evs, ⟨[], results⟩, some e) := by
  show processLoop pv ([] ++ [task]) results = _
  simp [processLoop, h]

/-- Full evaluation of run_pipeline from the initial state when all four
provider calls succeed. -/
theorem run_pipeline_eval_ok (pv : Providers) (topic : String)
    (rs : List SearchHit) (d ed m : String)
    (hS : pv.search (.text topic) = .ok rs)
    (hW : pv.azure (writingPromptOf (.text topic) (.hits rs)) 1000 = .ok d)
    (hE : pv.anthropic (editingPromptOf (.text d)) 1000 = .ok ed)
    (hM : pv.azure (seoPromptOf (.text ed)) 500 = .ok m) :
    CentralGuidingAgent.run_pipeline pv topic ⟨[], []⟩ =
      (fullEvents topic rs d ed m, ⟨[], fullStore rs d ed m⟩,
        .ok [("blog_post", .text ed), ("seo_metadata", .text m)]) := by
  unfold CentralGuidingAgent.run_pipeline
  rw [stage_eval_ok pv _ _ _ _ (dispatch_research_ok pv topic rs hS)]
  simp only [buildWritingTask, dictUpdate, dictInsert, List.foldl, dictGet]
  simp only [reduceIte, String.reduceEq]
  rw [stage_eval_ok pv _ _ _ _ (dispatch_writing_ok pv topic (.hits rs) d hW)]
  simp only [buildEditingTask, dictUpdate, dictInsert, List.foldl, dictGet]
  simp only [reduceIte, String.reduceEq]
  rw [stage_eval_ok pv _ _ _ _ (dispatch_editing_ok pv (.text d) ed hE)]
  simp only [buildSeoTask, dictUpdate, dictInsert, List.foldl, dictGet]
  simp only [reduceIte, String.reduceEq]
  rw [stage_eval_ok pv _ _ _ _ (dispatch_seo_ok pv (.text ed) m hM)]
  simp [fullEvents, fullStore, dictGet, dictUpdate, dictInsert]

/-- Full evaluation of run_pipeline from the initial state when the search
call fails: the run aborts in the research stage. -/
theorem run_pipeline_eval_search_err (pv : Providers) (topic : String)
    (u : Unit) (hS : pv.search (.text topic) = .error u) :
    CentralGuidingAgent.run_pipeline pv topic ⟨[], []⟩ =
      ([.search (.text topic)], ⟨[], []⟩, .error .upstream) := by
  unfold CentralGuidingAgent.run_pipeline
  rw [stage_eval_err pv _ _ _ _ (dispatch_research_err pv topic u hS)]

/-- Full evaluation of run_pipeline from the initial state when the writing
call fails: the run aborts in the writing stage. -/
theorem run_pipeline_eval_writing_err (pv : Providers) (topic : String)
    (rs : List SearchHit) (u : Unit)
    (hS : pv.search (.text topic) = .ok rs)
    (hW : pv.azure (writingPromptOf (.text topic) (.hits rs)) 1000 = .error u) :
    CentralGuidingAgent.run_pipeline pv topic ⟨[], []⟩ =
      ([.search (.text topic), .write "research_results" (.hits rs),
        .azure (writingPromptOf (.text topic) (.hits rs)) 1000],
       ⟨[], [("research_results", .hits rs)]⟩, .error .upstream) := by
  unfold CentralGuidingAgent.run_pipeline
  rw [stage_eval_ok pv _ _ _ _ (dispatch_research_ok pv topic rs hS)]
  simp only [buildWritingTask, dictUpdate, dictInsert, List.foldl, dictGet]
  simp only [reduceIte, String.reduceEq]
  rw [stage_eval_err pv _ _ _ _ (dispatch_writing_err pv topic (.hits rs) u hW)]
  simp

/-- Full evaluation of run_pipeline from the initial state when the editing
call fails: the run aborts in the editing stage, and in particular the seo
provider call (provider A with max_tokens 500) never happens. -/
theorem run_pipeline_eval_editing_err (pv : Providers) (topic : String)
    (rs : List SearchHit) (d : String) (u : Unit)
    (hS : pv.search (.text topic) = .ok rs)
    (hW : pv.azure (writingPromptOf (.text topic) (.hits rs)) 1000 = .ok d)
    (hE : pv.anthropic (editingPromptOf (.text d)) 1000 = .error u) :
    CentralGuidingAgent.run_pipeline pv topic ⟨[], []⟩ =
      ([.search (.text topic), .write "research_results" (.hits rs),
        .azure (writingPromptOf (.text topic) (.hits rs)) 1000,
        .write "blog_post" (.text d),
        .anthropic (editingPromptOf (.text d)) 1000],
       ⟨[], [("research_results", .hits rs), ("blog_post", .text d)]⟩,
       .error .upstream) := by
  unfold CentralGuidingAgent.run_pipeline
  rw [stage_eval_ok pv _ _ _ _ (dispatch_research_ok pv topic rs hS)]
  simp only [buildWritingTask, dictUpdate, dictInsert, List.foldl, dictGet]
  simp only [reduceIte, String.reduceEq]
  rw [stage_eval_ok pv _ _ _ _ (dispatch_writing_ok pv topic (.hits rs) d hW)]
  simp only [buildEditingTask, dictUpdate, dictInsert, List.foldl, dictGet]
  simp only [reduceIte, String.reduceEq]
  rw [stage_eval_err pv _ _ _ _ (dispatch_editing_err pv (.text d) u hE)]
  simp [dictUpdate, dictInsert, List.foldl]

/-- Full evaluation of run_pipeline from the initial state when the seo
call fails: the run aborts in the seo stage. -/
theorem run_pipeline_eval_seo_err (pv : Providers) (topic : String)
    (rs : List SearchHit) (d ed : String) (u : Unit)
    (hS : pv.search (.text topic) = .ok rs)
    (hW : pv.azure (writingPromptOf (.text topic) (.hits rs)) 1000 = .ok d)
    (hE : pv.anthropic (editingPromptOf (.text d)) 1000 = .ok ed)
    (hM : pv.azure (seoPromptOf (.text ed)) 500 = .error u) :
    CentralGuidingAgent.run_pipeline pv topic ⟨[], []⟩ =
      ([.search (.text topic), .write "research_results" (.hits rs),
        .azure (writingPromptOf (.text topic) (.hits rs)) 1000,
        .write "blog_post" (.text d),
        .anthropic (editingPromptOf (.text d)) 1000,
        .write "edited_post" (.text ed),
        .azure (seoPromptOf (.text ed)) 500],
       ⟨[], [("research_results", .hits rs), ("blog_post", .text d),
             ("edited_post", .text ed)]⟩, .error .upstream) := by
  unfold CentralGuidingAgent.run_pipeline
  rw [stage_eval_ok pv _ _ _ _ (dispatch_research_ok pv topic rs hS)]
  simp only [buildWritingTask, dictUpdate, dictInsert, List.foldl, dictGet]
  simp only [reduceIte, String.reduceEq]
  rw [stage_eval_ok pv _ _ _ _ (dispatch_writing_ok pv topic (.hits rs) d hW)]
  simp only [buildEditingTask, dictUpdate, dictInsert, List.foldl, dictGet]
  simp only [reduceIte, String.reduceEq]
  rw [stage_eval_ok pv _ _ _ _ (dispatch_editing_ok pv (.text d) ed hE)]
  simp only [buildSeoTask, dictUpdate, dictInsert, List.foldl, dictGet]
  simp only [reduceIte, String.reduceEq]
  rw [stage_eval_err pv _ _ _ _ (dispatch_seo_err pv (.text ed) u hM)]
  simp [dictUpdate, dictInsert, List.foldl]

/-- C10: calling process_tasks on an empty task queue returns at once: no
event happens, nothing is dequeued, and both the queue and the results dict
are exactly as before the call. -/
theorem process_tasks_empty_queue_noop (pv : Providers) (results : Dict) :
    CentralGuidingAgent.process_tasks pv ⟨[], results⟩ =
      ([], ⟨[], results⟩, none) := rfl

/-- C7: before each later stage's task is constructed, run_pipeline reads the
prerequisite key out of the results dict; if the key is absent the
construction fails with the missing-key error for that key instead of
proceeding with partial data. -/
theorem stage_guard_missing_prereq (topic : String) (results : Dict) :
    (dictGet results "research_results" = none →
      buildWritingTask topic results = .error (.missingKey "research_results")) ∧
    (dictGet results "blog_post" = none →
      buildEditingTask results = .error (.missingKey "blog_post")) ∧
    (dictGet results "edited_post" = none →
      buildSeoTask results = .error (.missingKey "edited_post")) := by
  refine ⟨fun h => ?_, fun h => ?_, fun h => ?_⟩ <;>
    simp [buildWritingTask, buildEditingTask, buildSeoTask, h]

/-- Witness for C7 at the empty results dict. -/
theorem stage_guard_missing_prereq_witness :
    buildWritingTask "Remote Work Trends" [] =
      .error (.missingKey "research_results") ∧
    buildEditingTask [] = .error (.missingKey "blog_post") ∧
    buildSeoTask [] = .error (.missingKey "edited_post") :=
  ⟨(stage_guard_missing_prereq "Remote Work Trends" []).1 rfl,
   (stage_guard_missing_prereq "Remote Work Trends" []).2.1 rfl,
   (stage_guard_missing_prereq "Remote Work Trends" []).2.2 rfl⟩

/-- C5 counterexample: a task whose query field is present but null is
dispatched without a missing-input error; the agent passes the null value on
to the search provider and succeeds.  The code only raises on an absent
field, never on a null one. -/
theorem null_query_dispatch_succeeds :
    dictGet [("agent", Value.text "research"), ("query", Value.null)]
        "query" = some Value.null ∧
    dispatchTask mockProviders
        [("agent", Value.text "research"), ("query", Value.null)] =
      ([Event.search Value.null],
        .ok [("research_results", Value.hits mockHits)]) :=
  ⟨rfl, rfl⟩

/-- C5 amended: for each agent, if a required field is absent from the task
the agent fails with the missing-input error for that field before any
provider call; a present-but-null field is not rejected. -/
theorem missing_field_dispatch_errors (pv : Providers) (task : Task) :
    (dictGet task "query" = none →
      ResearchAgent.process_task pv task =
        ([], .error (.missingInput "query"))) ∧
    (dictGet task "topic" = none →
      WritingAgent.process_task pv task =
        ([], .error (.missingInput "topic"))) ∧
    (∀ v, dictGet task "topic" = some v →
      dictGet task "research_results" = none →
      WritingAgent.process_task pv task =
        ([], .error (.missingInput "research_results"))) ∧
    (dictGet task "blog_post" = none →
      EditingAgent.process_task pv task =
        ([], .error (.missingInput "blog_post"))) ∧
    (dictGet task "edited_post" = none →
      SEOAgent.process_task pv task =
        ([], .error (.missingInput "edited_post"))) := by
  refine ⟨fun h => ?_, fun h => ?_, fun v hv h => ?_, fun h => ?_, fun h => ?_⟩
  · simp [ResearchAgent.process_task, h]
  · simp [WritingAgent.process_task, h]
  · simp [WritingAgent.process_task, hv, h]
  · simp [EditingAgent.process_task, h]
  · simp [SEOAgent.process_task, h]

/-- Witness for the amended C5: a task holding only a topic makes the
research agent fail on the absent query and the writing agent fail on the
absent research results. -/
theorem missing_field_dispatch_errors_witness :
    ResearchAgent.process_task mockProviders [("topic", Value.text "t")] =
      ([], .error (.missingInput "query")) ∧
    WritingAgent.process_task mockProviders [("topic", Value.text "t")] =
      ([], .error (.missingInput "research_results")) :=
  ⟨(missing_field_dispatch_errors mockProviders [("topic", Value.text "t")]).1
      rfl,
   (missing_field_dispatch_errors mockProviders
      [("topic", Value.text "t")]).2.2.1 (Value.text "t") rfl rfl⟩

/-- C6: a task naming an agent outside the fixed registry makes
process_tasks fail with the unknown-agent error at the registry lookup:
no provider is called, nothing is written, and the results dict is exactly
as before; the failing task has already been dequeued when the exception
propagates. -/
theorem unknown_agent_halts (pv : Providers) (task : Task)
    (rest : List Task) (st : Dict) (a : Value)
    (hA : dictGet task "agent" = some a)
    (h1 : a ≠ Value.text "research") (h2 : a ≠ Value.text "writing")
    (h3 : a ≠ Value.text "editing") (h4 : a ≠ Value.text "seo") :
    CentralGuidingAgent.process_tasks pv ⟨task :: rest, st⟩ =
      ([], ⟨rest, st⟩, some (.unknownAgent a)) := by
  simp [CentralGuidingAgent.process_tasks, processLoop, dispatchTask,
    hA, h1, h2, h3, h4]

/-- Witness for C6 with the spec's agent name nonexistent. -/
theorem unknown_agent_halts_witness :
    CentralGuidingAgent.process_tasks mockProviders
        ⟨[[("agent", Value.text "nonexistent")]], [("k", Value.text "v")]⟩ =
      ([], ⟨[], [("k", Value.text "v")]⟩,
        some (.unknownAgent (Value.text "nonexistent"))) :=
  unknown_agent_halts mockProviders [("agent", Value.text "nonexistent")] []
    [("k", Value.text "v")] (Value.text "nonexistent") rfl
    (by decide) (by decide) (by decide) (by decide)

/-- C8: the hits returned by the research agent are stored under
research_results, read back unchanged when run_pipeline builds the writing
task, placed in that task's research_results field, and read back unchanged
by the writing agent: the identical value all the way through. -/
theorem research_results_in_transit (pv : Providers) (topic : String)
    (rs : List SearchHit) (results : Dict)
    (hS : pv.search (.text topic) = .ok rs) :
    ResearchAgent.process_task pv (researchTaskOf topic) =
      ([.search (.text topic)], .ok [("research_results", .hits rs)]) ∧
    dictGet (dictUpdate results [("research_results", .hits rs)])
        "research_results" = some (.hits rs) ∧
    buildWritingTask topic
        (dictUpdate results [("research_results", .hits rs)]) =
      .ok (writingTaskOf topic (.hits rs)) ∧
    dictGet (writingTaskOf topic (.hits rs)) "research_results" =
      some (.hits rs) := by
  refine ⟨?_, ?_, ?_, ?_⟩
  · simp [ResearchAgent.process_task, researchTaskOf, dictGet, hS]
  · rw [dictUpdate_single]; exact dictGet_dictInsert_self results _ _
  · rw [buildWritingTask, dictUpdate_single, dictGet_dictInsert_self]
  · simp [writingTaskOf, dictGet]

/-- Witness for C8 with the scenario mocks. -/
theorem research_results_in_transit_witness :
    buildWritingTask "Remote Work Trends"
        (dictUpdate [] [("research_results", Value.hits mockHits)]) =
      .ok (writingTaskOf "Remote Work Trends" (Value.hits mockHits)) ∧
    dictGet (writingTaskOf "Remote Work Trends" (Value.hits mockHits))
        "research_results" = some (Value.hits mockHits) :=
  ⟨(research_results_in_transit mockProviders "Remote Work Trends" mockHits []
      rfl).2.2.1,
   (research_results_in_transit mockProviders "Remote Work Trends" mockHits []
      rfl).2.2.2⟩

/-- C3: whichever stage's provider call fails first, run_pipeline aborts
with the upstream error at that stage and no artifact is produced: the
returned trace stops at the failing call, so no later provider call
happens; in particular, when the editing call fails the seo provider call
(provider A with max_tokens 500) never happens.  Each hypothesis concerns
only the call the run actually makes. -/
theorem any_stage_failure_aborts (pv : Providers) (topic : String) :
    (∀ u, pv.search (.text topic) = .error u →
      CentralGuidingAgent.run_pipeline pv topic ⟨[], []⟩ =
        ([.search (.text topic)], ⟨[], []⟩, .error .upstream)) ∧
    (∀ rs u, pv.search (.text topic) = .ok rs →
      pv.azure (writingPromptOf (.text topic) (.hits rs)) 1000 = .error u →
      CentralGuidingAgent.run_pipeline pv topic ⟨[], []⟩ =
        ([.search (.text topic), .write "research_results" (.hits rs),
          .azure (writingPromptOf (.text topic) (.hits rs)) 1000],
         ⟨[], [("research_results", .hits rs)]⟩, .error .upstream)) ∧
    (∀ rs d u, pv.search (.text topic) = .ok rs →
      pv.azure (writingPromptOf (.text topic) (.hits rs)) 1000 = .ok d →
      pv.anthropic (editingPromptOf (.text d)) 1000 = .error u →
      CentralGuidingAgent.run_pipeline pv topic ⟨[], []⟩ =
        ([.search (.text topic), .write "research_results" (.hits rs),
          .azure (writingPromptOf (.text topic) (.hits rs)) 1000,
          .write "blog_post" (.text d),
          .anthropic (editingPromptOf (.text d)) 1000],
         ⟨[], [("research_results", .hits rs), ("blog_post", .text d)]⟩,
         .error .upstream) ∧
      ∀ p, Event.azure p 500 ∉
        ([.search (.text topic), .write "research_results" (.hits rs),
          .azure (writingPromptOf (.text topic) (.hits rs)) 1000,
          .write "blog_post" (.text d),
          .anthropic (editingPromptOf (.text d)) 1000] : List Event)) ∧
    (∀ rs d ed u, pv.search (.text topic) = .ok rs →
      pv.azure (writingPromptOf (.text topic) (.hits rs)) 1000 = .ok d →
      pv.anthropic (editingPromptOf (.text d)) 1000 = .ok ed →
      pv.azure (seoPromptOf (.text ed)) 500 = .error u →
      CentralGuidingAgent.run_pipeline pv topic ⟨[], []⟩ =
        ([.search (.text topic), .write "research_results" (.hits rs),
          .azure (writingPromptOf (.text topic) (.hits rs)) 1000,
          .write "blog_post" (.text d),
          .anthropic (editingPromptOf (.text d)) 1000,
          .write "edited_post" (.text ed),
          .azure (seoPromptOf (.text ed)) 500],
         ⟨[], [("research_results", .hits rs), ("blog_post", .text d),
               ("edited_post", .text ed)]⟩, .error .upstream)) := by
  refine ⟨fun u hS => ?_, fun rs u hS hW => ?_,
    fun rs d u hS hW hE => ⟨?_, fun p => ?_⟩, fun rs d ed u hS hW hE hM => ?_⟩
  · exact run_pipeline_eval_search_err pv topic u hS
  · exact run_pipeline_eval_writing_err pv topic rs u hS hW
  · exact run_pipeline_eval_editing_err pv topic rs d u hS hW hE
  · simp
  · exact run_pipeline_eval_seo_err pv topic rs d ed u hS hW hE hM

/-- Witness for C3: the scenario mocks with a failing editing provider make
the run abort with the upstream error after exactly the editing call, the
seo provider call never happening. -/
theorem any_stage_failure_aborts_witness :
    CentralGuidingAgent.run_pipeline mockProvidersEditFail "Remote Work Trends"
        ⟨[], []⟩ =
      ([.search (.text "Remote Work Trends"),
        .write "research_results" (.hits mockHits),
        .azure (writingPromptOf (.text "Remote Work Trends")
          (.hits mockHits)) 1000,
        .write "blog_post" (.text "Draft text"),
        .anthropic (editingPromptOf (.text "Draft text")) 1000],
       ⟨[], [("research_results", .hits mockHits),
             ("blog_post", .text "Draft text")]⟩, .error .upstream) ∧
    ∀ p, Event.azure p 500 ∉
      ([.search (.text "Remote Work Trends"),
        .write "research_results" (.hits mockHits),
        .azure (writingPromptOf (.text "Remote Work Trends")
          (.hits mockHits)) 1000,
        .write "blog_post" (.text "Draft text"),
        .anthropic (editingPromptOf (.text "Draft text")) 1000] : List Event) :=
  (any_stage_failure_aborts mockProvidersEditFail "Remote Work Trends").2.2.1
    mockHits "Draft text" () rfl rfl rfl

/-- C9 counterexample: providers may all succeed while returning empty text,
in which case the final artifact holds both keys but with empty text values;
the code never checks non-emptiness. -/
theorem empty_provider_text_artifact :
    (CentralGuidingAgent.run_pipeline emptyProviders "t" ⟨[], []⟩).2.2 =
      .ok [("blog_post", Value.text ""), ("seo_metadata", Value.text "")] := by
  rw [run_pipeline_eval_ok emptyProviders "t" [] "" "" "" rfl rfl rfl rfl]

/-- C9 amended: when all four provider calls succeed, run_pipeline returns an
artifact holding both the blog_post and seo_metadata keys; blog_post carries
exactly the editing provider's text and seo_metadata exactly the seo call's
text, so each is non-empty exactly when that provider output is. -/
theorem run_pipeline_success_artifact_keys (pv : Providers) (topic : String)
    (rs : List SearchHit) (d ed m : String)
    (hS : pv.search (.text topic) = .ok rs)
    (hW : pv.azure (writingPromptOf (.text topic) (.hits rs)) 1000 = .ok d)
    (hE : pv.anthropic (editingPromptOf (.text d)) 1000 = .ok ed)
    (hM : pv.azure (seoPromptOf (.text ed)) 500 = .ok m) :
    ∃ evs s4 art,
      CentralGuidingAgent.run_pipeline pv topic ⟨[], []⟩ =
        (evs, s4, .ok art) ∧
      dictGet art "blog_post" = some (.text ed) ∧
      dictGet art "seo_metadata" = some (.text m) := by
  refine ⟨_, _, _, run_pipeline_eval_ok pv topic rs d ed m hS hW hE hM,
    ?_, ?_⟩ <;> simp [dictGet]

/-- Witness for the amended C9 with the scenario mocks. -/
theorem run_pipeline_success_artifact_keys_witness :
    ∃ evs s4 art,
      CentralGuidingAgent.run_pipeline mockProviders "Remote Work Trends"
          ⟨[], []⟩ = (evs, s4, .ok art) ∧
      dictGet art "blog_post" = some (Value.text "Edited text") ∧
      dictGet art "seo_metadata" = some (Value.text "meta: remote work") :=
  run_pipeline_success_artifact_keys mockProviders "Remote Work Trends"
    mockHits "Draft text" "Edited text" "meta: remote work"
    rfl rfl rfl rfl

/-- C2: a run of the pipeline from the initial state in which all four
stages complete leaves the results dict holding exactly the four expected
keys in stage order, and the trace shows each of the four keys written
exactly once, in stage order, with no overwrites. -/
theorem run_pipeline_store_write_once (pv : Providers) (topic : String)
    (evs : List Event) (s4 : CGAState) (art : Dict)
    (h : CentralGuidingAgent.run_pipeline pv topic ⟨[], []⟩ =
      (evs, s4, .ok art)) :
    ∃ v1 v2 v3 v4,
      s4.results = [("research_results", v1), ("blog_post", v2),
        ("edited_post", v3), ("seo_metadata", v4)] ∧
      evs.filterMap Event.writeKey =
        ["research_results", "blog_post", "edited_post", "seo_metadata"] := by
  cases hS : pv.search (Value.text topic) with
  | error u =>
    rw [run_pipeline_eval_search_err pv topic u hS] at h
    simp at h
  | ok rs =>
    cases hW : pv.azure (writingPromptOf (.text topic) (.hits rs)) 1000 with
    | error u =>
      rw [run_pipeline_eval_writing_err pv topic rs u hS hW] at h
      simp at h
    | ok d =>
      cases hE : pv.anthropic (editingPromptOf (.text d)) 1000 with
      | error u =>
        rw [run_pipeline_eval_editing_err pv topic rs d u hS hW hE] at h
        simp at h
      | ok ed =>
        cases hM : pv.azure (seoPromptOf (.text ed)) 500 with
        | error u =>
          rw [run_pipeline_eval_seo_err pv topic rs d ed u hS hW hE hM] at h
          simp at h
        | ok m =>
          rw [run_pipeline_eval_ok pv topic rs d ed m hS hW hE hM] at h
          simp only [Prod.mk.injEq] at h
          obtain ⟨h1, h2, h3⟩ := h
          subst h1
          subst h2
          exact ⟨.hits rs, .text d, .text ed, .text m, rfl,
            by simp [fullEvents, Event.writeKey]⟩

/-- Witness for C2 with the scenario mocks. -/
theorem run_pipeline_store_write_once_witness :
    ∃ v1 v2 v3 v4,
      (CGAState.mk []
        (fullStore mockHits "Draft text" "Edited text"
          "meta: remote work")).results =
        [("research_results", v1), ("blog_post", v2),
          ("edited_post", v3), ("seo_metadata", v4)] ∧
      (fullEvents "Remote Work Trends" mockHits "Draft text" "Edited text"
          "meta: remote work").filterMap Event.writeKey =
        ["research_results", "blog_post", "edited_post", "seo_metadata"] :=
  run_pipeline_store_write_once mockProviders "Remote Work Trends"
    (fullEvents "Remote Work Trends" mockHits "Draft text" "Edited text"
      "meta: remote work")
    ⟨[], fullStore mockHits "Draft text" "Edited text" "meta: remote work"⟩
    [("blog_post", Value.text "Edited text"),
      ("seo_metadata", Value.text "meta: remote work")]
    (run_pipeline_eval_ok mockProviders "Remote Work Trends" mockHits
      "Draft text" "Edited text" "meta: remote work" rfl rfl rfl rfl)

/-- C1: whenever run_pipeline completes all four stages, whatever the
initial state, it returns exactly the dict mapping blog_post to the value
stored under edited_post and seo_metadata to the value stored under
seo_metadata. -/
theorem run_pipeline_final_artifact (pv : Providers) (topic : String)
    (s0 : CGAState) (evs : List Event) (s4 : CGAState) (art : Dict)
    (h : CentralGuidingAgent.run_pipeline pv topic s0 = (evs, s4, .ok art)) :
    ∃ vE vS, art = [("blog_post", vE), ("seo_metadata", vS)] ∧
      dictGet s4.results "edited_post" = some vE ∧
      dictGet s4.results "seo_metadata" = some vS := by
  unfold CentralGuidingAgent.run_pipeline at h
  repeat' split at h
  all_goals simp_all

/-- Witness for C1: with the spec's scenario mocks the artifact is exactly
the expected one, blog_post mapping to the edited text and seo_metadata to
the metadata text. -/
theorem run_pipeline_final_artifact_witness :
    ∃ vE vS,
      ([("blog_post", Value.text "Edited text"),
        ("seo_metadata", Value.text "meta: remote work")] : Dict) =
        [("blog_post", vE), ("seo_metadata", vS)] ∧
      dictGet (CGAState.mk []
          (fullStore mockHits "Draft text" "Edited text"
            "meta: remote work")).results "edited_post" = some vE ∧
      dictGet (CGAState.mk []
          (fullStore mockHits "Draft text" "Edited text"
            "meta: remote work")).results "seo_metadata" = some vS :=
  run_pipeline_final_artifact mockProviders "Remote Work Trends" ⟨[], []⟩
    (fullEvents "Remote Work Trends" mockHits "Draft text" "Edited text"
      "meta: remote work")
    ⟨[], fullStore mockHits "Draft text" "Edited text" "meta: remote work"⟩
    [("blog_post", Value.text "Edited text"),
      ("seo_metadata", Value.text "meta: remote work")]
    (run_pipeline_eval_ok mockProviders "Remote Work Trends" mockHits
      "Draft text" "Edited text" "meta: remote work" rfl rfl rfl rfl)

/-- C4: process_tasks agrees with the spec's FIFO drain on any queue: it
processes the queued tasks one at a time in enqueue order, skipping and
reordering none, merging each task's output into the results dict before
dequeuing the next, and whenever it returns normally the queue has been
drained to empty. -/
theorem process_tasks_drains_fifo (pv : Providers) (q : List Task)
    (st : Dict) :
    drainFIFO pv q st =
      ((CentralGuidingAgent.process_tasks pv ⟨q, st⟩).1,
       ((CentralGuidingAgent.process_tasks pv ⟨q, st⟩).2.1).results,
       (CentralGuidingAgent.process_tasks pv ⟨q, st⟩).2.2) ∧
    ((CentralGuidingAgent.process_tasks pv ⟨q, st⟩).2.2 = none →
      ((CentralGuidingAgent.process_tasks pv ⟨q, st⟩).2.1).task_queue = []) := by
  induction q generalizing st with
  | nil => simp [CentralGuidingAgent.process_tasks, processLoop, drainFIFO]
  | cons t rest ih =>
    rcases h : dispatchTask pv t with ⟨evs, r⟩
    cases r with
    | error e =>
      simp [CentralGuidingAgent.process_tasks, processLoop, drainFIFO, h]
    | ok pr =>
      have ih2 := ih (dictUpdate st pr)
      rcases h2 : processLoop pv rest (dictUpdate st pr) with ⟨evs2, s2, r2⟩
      simp only [CentralGuidingAgent.process_tasks, processLoop, drainFIFO,
        h, h2] at ih2 ⊢
      obtain ⟨iha, ihb⟩ := ih2
      constructor
      · simp [iha]
      · exact ihb

/-- Witness for C4: a queue holding the two first stage tasks is drained to
empty by process_tasks under the scenario mocks. -/
theorem process_tasks_drains_fifo_witness :
    ((CentralGuidingAgent.process_tasks mockProviders
        ⟨[researchTaskOf "Remote Work Trends",
          writingTaskOf "Remote Work Trends" (Value.hits mockHits)],
         []⟩).2.1).task_queue = [] :=
  (process_tasks_drains_fifo mockProviders
    [researchTaskOf "Remote Work Trends",
     writingTaskOf "Remote Work Trends" (Value.hits mockHits)] []).2 rfl

end GMAS
